import Mathlib

/-!
Verification development for `tools/capture_ocr_enhanced.py`, a capture +
OCR pipeline.  The Python program is shallowly embedded: each function is
translated into a pure Lean function over an explicit environment `Env`
describing the behaviour of the external collaborators (ffmpeg, Pillow,
tesseract, easyocr), and returns its result together with the list of
observable events it performs (file creations and deletions, OCR engine
invocations, stderr diagnostics, stdout prints).  A Python exception that
escapes a function is modelled with `Except`.
-/

namespace CaptureOcr

/-- Observable events of one run: temporary-file creation and deletion,
an OCR engine invocation on an image path, a diagnostic line on stderr,
and a line printed on stdout. -/
inductive Ev where
  | create (path : String)
  | delete (path : String)
  | ocr (path : String)
  | err (msg : String)
  | out (msg : String)
deriving DecidableEq, Repr

/-- Behaviour of the external world as seen by the script:
whether ffmpeg fails for a given device, the name handed out by
`tempfile.NamedTemporaryFile`, whether Pillow is importable, whether the
`tesseract` binary is on the PATH and what (returncode, stdout) a run of it
produces, whether `easyocr` is importable and which text segments it
detects, and whether the chosen OCR engine run raises an exception. -/
structure Env where
  ffmpegFails : String → Bool
  tmpName : String
  pillowAvailable : Bool
  tesseractAvailable : Bool
  tesseractRun : String → Int × String
  easyocrAvailable : Bool
  easyocrSegments : String → List String
  ocrRaises : Bool

/-- Model of Python `str.replace` on character lists, recursing on a fuel
bound so that it evaluates by kernel reduction: every leftmost
non-overlapping occurrence of `pat` is replaced by `rep`.  (The script
only calls it with the nonempty pattern `.png`.) -/
def replaceFuel (pat rep : List Char) : Nat → List Char → List Char
  | 0, l => l
  | _ + 1, [] => []
  | fuel + 1, c :: cs =>
      if pat.isPrefixOf (c :: cs) then
        rep ++ replaceFuel pat rep fuel ((c :: cs).drop pat.length)
      else
        c :: replaceFuel pat rep fuel cs

/-- Python `s.replace(pat, rep)`. -/
def pyReplace (s pat rep : String) : String :=
  ⟨replaceFuel pat.data rep.data s.data.length s.data⟩

/-- Model of Python `str.split` with an explicit separator, fuel-indexed
like `replaceFuel`; in particular the empty string splits to `[""]`. -/
def splitFuel (sep : List Char) : Nat → List Char → List (List Char)
  | 0, l => [l]
  | _ + 1, [] => [[]]
  | fuel + 1, c :: cs =>
      if sep.isPrefixOf (c :: cs) then
        [] :: splitFuel sep fuel ((c :: cs).drop sep.length)
      else
        match splitFuel sep fuel cs with
        | [] => [[c]]
        | h :: t => (c :: h) :: t

/-- Python `s.split(sep)`. -/
def pySplit (s sep : String) : List String :=
  (splitFuel sep.data s.data.length s.data).map fun l => ⟨l⟩

/-- Function `capture_frame(device)`: `NamedTemporaryFile(suffix=.png, delete=False)`
creates the temporary file, then ffmpeg is run to fill it.  On a nonzero
exit status the function reports on stderr and returns `None`; the file it
created is not removed on that path. -/
def capture_frame (env : Env) (device : String) : Option String × List Ev :=
  let screenshot_path := env.tmpName
  if env.ffmpegFails device then
    (none, [Ev.create screenshot_path, Ev.err "ERROR: ffmpeg failed"])
  else
    (some screenshot_path, [Ev.create screenshot_path])

/-- File-level behaviour of `preprocess_image(input_path)`: when Pillow is
missing it warns and returns the input path unchanged; otherwise it saves
the transformed image at `input_path.replace(.png, _processed.png)` and
returns that path.  (The pixel-level pipeline is modelled separately by
`preprocess_pixels`.) -/
def preprocess_image (env : Env) (input_path : String) : String × List Ev :=
  if env.pillowAvailable then
    let output_path := pyReplace input_path ".png" "_processed.png"
    (output_path, [Ev.create output_path])
  else
    (input_path, [Ev.err "WARNING: Pillow not installed, skipping preprocessing"])

/-- Function `ocr_tesseract(image_path)`: runs the tesseract CLI and returns
`result.stdout` verbatim; `result.returncode` is never consulted.  A raise
from `subprocess.run` itself propagates. -/
def ocr_tesseract (env : Env) (image_path : String) : Except Unit String × List Ev :=
  if env.ocrRaises then
    (Except.error (), [])
  else
    (Except.ok (env.tesseractRun image_path).2, [Ev.ocr image_path])

/-- Function `ocr_easyocr(image_path)`: returns `None` when the library is not
importable, otherwise the detected segments joined with newlines; a
runtime error inside the reader propagates. -/
def ocr_easyocr (env : Env) (image_path : String) : Except Unit (Option String) × List Ev :=
  if env.easyocrAvailable then
    if env.ocrRaises then
      (Except.error (), [])
    else
      (Except.ok (some (String.intercalate "\n" (env.easyocrSegments image_path))),
        [Ev.ocr image_path])
  else
    (Except.ok none, [])

/-- Function `do_ocr(image_path)`: tesseract when `which tesseract` succeeds,
otherwise easyocr, otherwise two stderr diagnostics and the empty
string. -/
def do_ocr (env : Env) (image_path : String) : Except Unit String × List Ev :=
  if env.tesseractAvailable then
    ocr_tesseract env image_path
  else
    match ocr_easyocr env image_path with
    | (Except.error e, evs) => (Except.error e, evs)
    | (Except.ok (some result), evs) => (Except.ok result, evs)
    | (Except.ok none, evs) =>
        (Except.ok "",
          evs ++ [Ev.err "ERROR: No OCR engine available",
                  Ev.err "Install: sudo pacman -S tesseract tesseract-data-eng"])

/-- Function `capture_and_ocr(device, preprocess=True)`: capture, optionally
preprocess, OCR, then cleanup.  The processed file is unlinked (after OCR,
inside the `try`) only when its path differs from the captured one; the
captured file is unlinked in the `finally`, so also when OCR raised. -/
def capture_and_ocr (env : Env) (device : String) (preprocess : Bool) :
    Except Unit String × List Ev :=
  match capture_frame env device with
  | (none, evs) => (Except.ok "", evs)
  | (some screenshot, evs0) =>
    if preprocess then
      match preprocess_image env screenshot with
      | (processed, evs1) =>
        match do_ocr env processed with
        | (Except.ok text, evs2) =>
            (Except.ok text,
              evs0 ++ evs1 ++ evs2
                ++ (if processed ≠ screenshot then [Ev.delete processed] else [])
                ++ [Ev.delete screenshot])
        | (Except.error e, evs2) =>
            (Except.error e, evs0 ++ evs1 ++ evs2 ++ [Ev.delete screenshot])
    else
      match do_ocr env screenshot with
      | (Except.ok text, evs2) =>
          (Except.ok text, evs0 ++ evs2 ++ [Ev.delete screenshot])
      | (Except.error e, evs2) =>
          (Except.error e, evs0 ++ evs2 ++ [Ev.delete screenshot])

/-- The `text.split(backslash-n)` of the watch loop. -/
def split_lines (s : String) : List String := pySplit s "\n"

/-- The diff-mode novelty computation of `watch_mode`:
`[l for l in lines if l and l not in last_lines]`. -/
def new_lines (text last_text : String) : List String :=
  (split_lines text).filter fun l => decide (l ≠ "" ∧ l ∉ split_lines last_text)

/-- One iteration of the `watch_mode` loop: `capture_and_ocr(device)` (the
`preprocess` parameter is left at its default `True`), then either the
diff-mode printing or the clear-and-reprint policy, and the text becomes
the next `last_text`.  `none` in the second component models an exception
escaping the iteration. -/
def watch_step (env : Env) (device : String) (diff_only : Bool) (last_text : String) :
    List Ev × Option String :=
  match capture_and_ocr env device true with
  | (Except.error _, evs) => (evs, none)
  | (Except.ok text, evs) =>
      if diff_only then
        (evs ++ (new_lines text last_text).map Ev.out, some text)
      else
        if text ≠ last_text then
          (evs ++ [Ev.out "\x1b[2J\x1b[H", Ev.out text], some text)
        else
          (evs, some text)

/-- The `watch_mode` loop, observed for `fuel` iterations (the Python loop
is unbounded; `fuel` bounds the observation window). -/
def watch_run (env : Env) (device : String) (diff_only : Bool) :
    Nat → String → List Ev
  | 0, _ => []
  | Nat.succ n, last_text =>
      match watch_step env device diff_only last_text with
      | (evs, none) => evs
      | (evs, some text) => evs ++ watch_run env device diff_only n text

/-- Function `watch_mode(device, interval, diff_only)`: the two stderr banner lines,
then the loop started with `last_text = ""`. -/
def watch_mode (env : Env) (device : String) (diff_only : Bool) (fuel : Nat) : List Ev :=
  [Ev.err ("Watching " ++ device ++ " (Ctrl+C to stop)..."),
   Ev.err (String.mk (List.replicate 60 (Char.ofNat 45)))]
  ++ watch_run env device diff_only fuel ""

/-- The `--save` branch of `main`: capture; if it succeeded, copy to the
save path, report on stderr, OCR the (optionally preprocessed) frame,
unlink the captured file, print the text.  There is no `try/finally` here
and the processed file is never unlinked. -/
def main_save (env : Env) (device save_path : String) (no_pre : Bool) : List Ev :=
  match capture_frame env device with
  | (none, evs) => evs
  | (some screenshot, evs0) =>
      let evs_saved := [Ev.err ("Saved to " ++ save_path)]
      let pp := if no_pre then (screenshot, ([] : List Ev))
                else preprocess_image env screenshot
      match do_ocr env pp.1 with
      | (Except.ok text, evs2) =>
          evs0 ++ evs_saved ++ pp.2 ++ evs2 ++ [Ev.delete screenshot, Ev.out text]
      | (Except.error _, evs2) =>
          evs0 ++ evs_saved ++ pp.2 ++ evs2

/-- Parsed command-line arguments (the polling interval only feeds
`time.sleep` and is not part of the observable event model). -/
structure Args where
  device : String
  watch : Bool
  diff : Bool
  no_preprocess : Bool
  save : Option String

/-- The dispatch of `main`: `--watch` selects the loop (`--no-preprocess`
is not forwarded there), `--save` the save branch, otherwise a single
`capture_and_ocr(device, preprocess=not no_preprocess)` whose text is
printed. -/
def run_main (env : Env) (args : Args) (fuel : Nat) : List Ev :=
  if args.watch then
    watch_mode env args.device args.diff fuel
  else
    match args.save with
    | some sp => main_save env args.device sp args.no_preprocess
    | none =>
        match capture_and_ocr env args.device (!args.no_preprocess) with
        | (Except.ok text, evs) => evs ++ [Ev.out text]
        | (Except.error _, evs) => evs

/-- Number of occurrences of one event in a trace. -/
def countEv (evs : List Ev) (e : Ev) : Nat :=
  (evs.filter fun x => decide (x = e)).length

/-- A path that the trace created but never deleted. -/
def fileLeaked (evs : List Ev) (p : String) : Prop :=
  0 < countEv evs (Ev.create p) ∧ countEv evs (Ev.delete p) = 0

instance (evs : List Ev) (p : String) : Decidable (fileLeaked evs p) :=
  inferInstanceAs (Decidable (_ ∧ _))

/-- The stdout lines of a trace, in order. -/
def printedOut (evs : List Ev) : List String :=
  evs.filterMap fun e =>
    match e with
    | Ev.out s => some s
    | _ => none

/-!
Pixel-level model of `preprocess_image`.  A grayscale image is a width, a
height, and a luminance value (0..255) at each coordinate.  The Pillow
operations that the script uses with opaque kernels (`convert(L)`,
`ImageEnhance.Contrast(2.0)`, `filter(SHARPEN)`, and the LANCZOS
resampling of `resize`) are taken as parameters; the transforms the
script itself spells out (the 0/255 threshold `point`, the mean over
`getdata`, `ImageOps.invert`, and the doubled target size of `resize`)
are modelled exactly.
-/

/-- A single-channel image: dimensions and luminance per coordinate. -/
structure Img where
  width : Nat
  height : Nat
  px : Nat → Nat → Nat

/-- The threshold `img.point(lambda x: 0 if x < 128 else 255, mode 1)`. -/
def binarize_point (i : Img) : Img :=
  ⟨i.width, i.height, fun x y => if i.px x y < 128 then 0 else 255⟩

/-- The `ImageOps.invert` of an 8-bit image: `255 - v` per pixel. -/
def invertL (i : Img) : Img :=
  ⟨i.width, i.height, fun x y => 255 - i.px x y⟩

/-- The `sum(p for p in img.getdata())` of the mean computation. -/
def sumPix (i : Img) : Nat :=
  (Finset.range i.width).sum fun x => (Finset.range i.height).sum fun y => i.px x y

/-- The `len(list(img.getdata()))` of the mean computation. -/
def numPix (i : Img) : Nat := i.width * i.height

/-- The call `img.resize((img.width * 2, img.height * 2), Image.LANCZOS)`: Pillow
returns an image of exactly the requested size; the resampled content is
given by the opaque kernel `rk`. -/
def resize2x (rk : Img → Nat → Nat → Nat) (i : Img) : Img :=
  ⟨i.width * 2, i.height * 2, rk i⟩

/-- The image right after the threshold step of `preprocess_image`:
grayscale, contrast 2.0, sharpen, then the 0/255 point threshold. -/
def binarized_stage (gray contrast sharpen : Img → Img) (i : Img) : Img :=
  binarize_point (sharpen (contrast (gray i)))

/-- Pixel pipeline of `preprocess_image`: after the threshold, the image
is inverted when `avg < 128` (with `avg = sumPix / numPix`; the exact
integer comparison `sumPix < 128 * numPix` renders the float test), then
resized to double size. -/
def preprocess_pixels (gray contrast sharpen : Img → Img)
    (rk : Img → Nat → Nat → Nat) (i : Img) : Img :=
  let b := binarized_stage gray contrast sharpen i
  let b2 := if sumPix b < 128 * numPix b then invertL b else b
  resize2x rk b2

/-! Helper lemmas about traces. -/

lemma countEv_nil (e : Ev) : countEv [] e = 0 := rfl

lemma countEv_cons (a : Ev) (l : List Ev) (e : Ev) :
    countEv (a :: l) e = (if a = e then 1 else 0) + countEv l e := by
  by_cases h : a = e <;> simp [countEv, List.filter_cons, h, Nat.add_comm]

lemma countEv_append (a b : List Ev) (e : Ev) :
    countEv (a ++ b) e = countEv a e + countEv b e := by
  simp [countEv, List.filter_append]

lemma countEv_if (c : Prop) [Decidable c] (a b : List Ev) (e : Ev) :
    countEv (if c then a else b) e = if c then countEv a e else countEv b e := by
  split <;> rfl

lemma countEv_pos_iff (evs : List Ev) (e : Ev) : 0 < countEv evs e ↔ e ∈ evs := by
  induction evs with
  | nil => simp [countEv]
  | cons a t ih =>
      rw [countEv_cons]
      by_cases h : a = e
      · simp [h]
      · have h' : ¬e = a := fun he => h he.symm
        simp [h, h', ih]

lemma do_ocr_cases (env : Env) (p : String) :
    (do_ocr env p).2 = [] ∨ (do_ocr env p).2 = [Ev.ocr p] ∨
    (do_ocr env p).2 = [Ev.err "ERROR: No OCR engine available",
                        Ev.err "Install: sudo pacman -S tesseract tesseract-data-eng"] := by
  cases ht : env.tesseractAvailable <;> cases hr : env.ocrRaises <;>
    cases he : env.easyocrAvailable <;>
    simp [do_ocr, ocr_tesseract, ocr_easyocr, ht, hr, he]

lemma do_ocr_countEv_delete (env : Env) (p q : String) :
    countEv (do_ocr env p).2 (Ev.delete q) = 0 := by
  rcases do_ocr_cases env p with h | h | h <;>
    simp [h, countEv_nil, countEv_cons]

lemma do_ocr_countEv_create (env : Env) (p q : String) :
    countEv (do_ocr env p).2 (Ev.create q) = 0 := by
  rcases do_ocr_cases env p with h | h | h <;>
    simp [h, countEv_nil, countEv_cons]

lemma do_ocr_delete_not_mem (env : Env) (p q : String) :
    Ev.delete q ∉ (do_ocr env p).2 := by
  rw [← countEv_pos_iff, do_ocr_countEv_delete]
  exact lt_irrefl 0

lemma do_ocr_ok_of_not_raises (env : Env) (p : String) (hr : env.ocrRaises = false) :
    ∃ t, (do_ocr env p).1 = Except.ok t := by
  cases ht : env.tesseractAvailable <;> cases he : env.easyocrAvailable <;>
    simp [do_ocr, ocr_tesseract, ocr_easyocr, ht, he, hr]

lemma printedOut_nil : printedOut [] = [] := rfl

lemma printedOut_cons_create (p : String) (l : List Ev) :
    printedOut (Ev.create p :: l) = printedOut l := rfl

lemma printedOut_cons_delete (p : String) (l : List Ev) :
    printedOut (Ev.delete p :: l) = printedOut l := rfl

lemma printedOut_cons_ocr (p : String) (l : List Ev) :
    printedOut (Ev.ocr p :: l) = printedOut l := rfl

lemma printedOut_cons_err (m : String) (l : List Ev) :
    printedOut (Ev.err m :: l) = printedOut l := rfl

lemma printedOut_cons_out (s : String) (l : List Ev) :
    printedOut (Ev.out s :: l) = s :: printedOut l := rfl

lemma printedOut_append (a b : List Ev) :
    printedOut (a ++ b) = printedOut a ++ printedOut b := by
  simp [printedOut]

lemma printedOut_if (c : Prop) [Decidable c] (a b : List Ev) :
    printedOut (if c then a else b) = if c then printedOut a else printedOut b := by
  split <;> rfl

lemma printedOut_map_out (ls : List String) : printedOut (ls.map Ev.out) = ls := by
  induction ls with
  | nil => rfl
  | cons a t ih => simpa [printedOut] using ih

lemma printedOut_do_ocr (env : Env) (p : String) :
    printedOut (do_ocr env p).2 = [] := by
  rcases do_ocr_cases env p with h | h | h <;> simp [h, printedOut]

lemma printedOut_capture_and_ocr (env : Env) (device : String) (pp : Bool) :
    printedOut (capture_and_ocr env device pp).2 = [] := by
  cases hf : env.ffmpegFails device
  case true =>
    cases pp <;>
      simp [capture_and_ocr, capture_frame, hf, printedOut_cons_create,
        printedOut_cons_err, printedOut_nil]
  case false =>
    cases pp
    case false =>
      rcases h : do_ocr env env.tmpName with ⟨r, evs2⟩
      have h2 : printedOut evs2 = [] := by
        have hh := printedOut_do_ocr env env.tmpName
        rw [h] at hh
        exact hh
      cases r <;>
        simp [capture_and_ocr, capture_frame, hf, h, printedOut_append, h2,
          printedOut_cons_create, printedOut_cons_delete, printedOut_nil]
    case true =>
      cases hp : env.pillowAvailable
      case false =>
        rcases h : do_ocr env env.tmpName with ⟨r, evs2⟩
        have h2 : printedOut evs2 = [] := by
          have hh := printedOut_do_ocr env env.tmpName
          rw [h] at hh
          exact hh
        cases r <;>
          simp [capture_and_ocr, capture_frame, preprocess_image, hf, hp, h,
            printedOut_append, printedOut_if, h2, printedOut_cons_create,
            printedOut_cons_delete, printedOut_cons_err, printedOut_nil]
      case true =>
        rcases h : do_ocr env (pyReplace env.tmpName ".png" "_processed.png") with ⟨r, evs2⟩
        have h2 : printedOut evs2 = [] := by
          have hh := printedOut_do_ocr env (pyReplace env.tmpName ".png" "_processed.png")
          rw [h] at hh
          exact hh
        cases r <;>
          simp [capture_and_ocr, capture_frame, preprocess_image, hf, hp, h,
            printedOut_append, printedOut_if, h2, printedOut_cons_create,
            printedOut_cons_delete, printedOut_cons_err, printedOut_nil]

lemma preprocess_pixels_eq (gray contrast sharpen : Img → Img)
    (rk : Img → Nat → Nat → Nat) (i : Img) :
    preprocess_pixels gray contrast sharpen rk i =
      if sumPix (binarized_stage gray contrast sharpen i) <
          128 * numPix (binarized_stage gray contrast sharpen i) then
        resize2x rk (invertL (binarized_stage gray contrast sharpen i))
      else
        resize2x rk (binarized_stage gray contrast sharpen i) := by
  simp only [preprocess_pixels]
  rw [apply_ite (resize2x rk)]

/-! Concrete environments used for witnesses and counterexamples. -/

/-- A nominal environment: capture succeeds, Pillow and tesseract are
available, tesseract prints `hello`. -/
def envBase : Env where
  ffmpegFails := fun _ => false
  tmpName := "/tmp/cap.png"
  pillowAvailable := true
  tesseractAvailable := true
  tesseractRun := fun _ => (0, "hello")
  easyocrAvailable := false
  easyocrSegments := fun _ => []
  ocrRaises := false

/-- Same world, but ffmpeg exits with a nonzero status. -/
def envFfmpegFail : Env :=
  { envBase with ffmpegFails := fun _ => true }

/-! Claims. -/

/-- C7: when the tesseract binary is absent and the easyocr library is not
importable, `do_ocr` returns the empty string and emits the diagnostic and
the installation hint on stderr, without raising. -/
theorem claim_C7 (env : Env) (image_path : String)
    (ht : env.tesseractAvailable = false) (he : env.easyocrAvailable = false) :
    do_ocr env image_path =
      (Except.ok "", [Ev.err "ERROR: No OCR engine available",
                      Ev.err "Install: sudo pacman -S tesseract tesseract-data-eng"]) := by
  simp [do_ocr, ocr_easyocr, ht, he]

theorem claim_C7_witness :
    do_ocr { envBase with tesseractAvailable := false } "/tmp/img.png" =
      (Except.ok "", [Ev.err "ERROR: No OCR engine available",
                      Ev.err "Install: sudo pacman -S tesseract tesseract-data-eng"]) :=
  claim_C7 { envBase with tesseractAvailable := false } "/tmp/img.png" rfl rfl

/-- C9: when tesseract is present and its run returns, `do_ocr` is its
stdout with a single engine invocation and no diagnostics, and the result
does not depend on the exit status of the run. -/
theorem claim_C9 (env : Env) (image_path : String)
    (ht : env.tesseractAvailable = true) (hr : env.ocrRaises = false) :
    do_ocr env image_path =
      (Except.ok (env.tesseractRun image_path).2, [Ev.ocr image_path]) ∧
    ∀ rc : Int,
      do_ocr { env with tesseractRun := fun q => (rc, (env.tesseractRun q).2) } image_path
        = (Except.ok (env.tesseractRun image_path).2, [Ev.ocr image_path]) := by
  constructor
  · simp [do_ocr, ocr_tesseract, ht, hr]
  · intro rc
    simp [do_ocr, ocr_tesseract, ht, hr]

theorem claim_C9_witness :
    do_ocr envBase "/tmp/img.png" = (Except.ok "hello", [Ev.ocr "/tmp/img.png"]) := by
  have h := (claim_C9 envBase "/tmp/img.png" rfl rfl).1
  exact h

/-- C5: with the Pillow transforms of unknown kernels assumed
size-preserving (their library contract), the preprocessed image is
exactly double the input in both dimensions, and the thresholded stage
before inversion and resize holds only the two luminance levels 0
and 255. -/
theorem claim_C5 (gray contrast sharpen : Img → Img) (rk : Img → Nat → Nat → Nat)
    (i : Img)
    (hg : ∀ j, (gray j).width = j.width ∧ (gray j).height = j.height)
    (hc : ∀ j, (contrast j).width = j.width ∧ (contrast j).height = j.height)
    (hs : ∀ j, (sharpen j).width = j.width ∧ (sharpen j).height = j.height) :
    (preprocess_pixels gray contrast sharpen rk i).width = i.width * 2 ∧
    (preprocess_pixels gray contrast sharpen rk i).height = i.height * 2 ∧
    ∀ x y, (binarized_stage gray contrast sharpen i).px x y = 0 ∨
      (binarized_stage gray contrast sharpen i).px x y = 255 := by
  have hbw : (binarized_stage gray contrast sharpen i).width = i.width := by
    simp [binarized_stage, binarize_point, (hs _).1, (hc _).1, (hg _).1]
  have hbh : (binarized_stage gray contrast sharpen i).height = i.height := by
    simp [binarized_stage, binarize_point, (hs _).2, (hc _).2, (hg _).2]
  refine ⟨?_, ?_, ?_⟩
  · rw [preprocess_pixels_eq]
    split <;> simp [resize2x, invertL, hbw]
  · rw [preprocess_pixels_eq]
    split <;> simp [resize2x, invertL, hbh]
  · intro x y
    simp only [binarized_stage, binarize_point]
    split <;> simp

theorem claim_C5_witness :
    (preprocess_pixels id id id (fun _ _ _ => 0) ⟨3, 2, fun _ _ => 7⟩).width = 3 * 2 ∧
    (preprocess_pixels id id id (fun _ _ _ => 0) ⟨3, 2, fun _ _ => 7⟩).height = 2 * 2 := by
  have h := claim_C5 id id id (fun _ _ _ => 0) ⟨3, 2, fun _ _ => 7⟩
    (fun _ => ⟨rfl, rfl⟩) (fun _ => ⟨rfl, rfl⟩) (fun _ => ⟨rfl, rfl⟩)
  exact ⟨h.1, h.2.1⟩

/-- C6: on a nonempty image, when the mean of the thresholded stage is
strictly below 128 the pipeline output is the resized inversion of that
stage, and when the mean is at least 128 no inversion is applied. -/
theorem claim_C6 (gray contrast sharpen : Img → Img) (rk : Img → Nat → Nat → Nat)
    (i : Img)
    (hpos : 0 < numPix (binarized_stage gray contrast sharpen i)) :
    ((sumPix (binarized_stage gray contrast sharpen i) : ℚ) /
        (numPix (binarized_stage gray contrast sharpen i) : ℚ) < 128 →
      preprocess_pixels gray contrast sharpen rk i =
        resize2x rk (invertL (binarized_stage gray contrast sharpen i))) ∧
    (128 ≤ (sumPix (binarized_stage gray contrast sharpen i) : ℚ) /
        (numPix (binarized_stage gray contrast sharpen i) : ℚ) →
      preprocess_pixels gray contrast sharpen rk i =
        resize2x rk (binarized_stage gray contrast sharpen i)) := by
  have hq : (0 : ℚ) < (numPix (binarized_stage gray contrast sharpen i) : ℚ) := by
    exact_mod_cast hpos
  have key : (sumPix (binarized_stage gray contrast sharpen i) : ℚ) /
      (numPix (binarized_stage gray contrast sharpen i) : ℚ) < 128 ↔
      sumPix (binarized_stage gray contrast sharpen i) <
        128 * numPix (binarized_stage gray contrast sharpen i) := by
    rw [div_lt_iff₀ hq]
    constructor
    · intro h; exact_mod_cast h
    · intro h; exact_mod_cast h
  constructor
  · intro hmean
    rw [preprocess_pixels_eq, if_pos (key.mp hmean)]
  · intro hmean
    have hnot : ¬ sumPix (binarized_stage gray contrast sharpen i) <
        128 * numPix (binarized_stage gray contrast sharpen i) := by
      rw [← key]
      exact not_lt.mpr hmean
    rw [preprocess_pixels_eq, if_neg hnot]

theorem claim_C6_witness :
    preprocess_pixels id id id (fun _ _ _ => 0) ⟨1, 1, fun _ _ => 0⟩ =
      resize2x (fun _ _ _ => 0) (invertL (binarized_stage id id id ⟨1, 1, fun _ _ => 0⟩)) := by
  have h := claim_C6 id id id (fun _ _ _ => 0) ⟨1, 1, fun _ _ => 0⟩
    (by norm_num [numPix, binarized_stage, binarize_point])
  exact h.1 (by norm_num [sumPix, numPix, binarized_stage, binarize_point])

/-- C2 (amended): when ffmpeg exits nonzero, `capture_and_ocr` returns the
empty string and never invokes an OCR engine, but the temporary file that
`capture_frame` created is left on disk: it is created once and never
deleted. -/
theorem claim_C2 (env : Env) (device : String) (preprocess : Bool)
    (hf : env.ffmpegFails device = true) :
    (capture_and_ocr env device preprocess).1 = Except.ok "" ∧
    (∀ p, Ev.ocr p ∉ (capture_and_ocr env device preprocess).2) ∧
    countEv (capture_and_ocr env device preprocess).2 (Ev.create env.tmpName) = 1 ∧
    countEv (capture_and_ocr env device preprocess).2 (Ev.delete env.tmpName) = 0 := by
  have hcao : capture_and_ocr env device preprocess =
      (Except.ok "", [Ev.create env.tmpName, Ev.err "ERROR: ffmpeg failed"]) := by
    cases preprocess <;> simp [capture_and_ocr, capture_frame, hf]
  rw [hcao]
  refine ⟨rfl, ?_, ?_, ?_⟩
  · intro p hmem
    simp at hmem
  · simp [countEv_cons, countEv_nil]
  · simp [countEv_cons, countEv_nil]

theorem claim_C2_witness :
    (capture_and_ocr envFfmpegFail "/dev/video0" true).1 = Except.ok "" ∧
    countEv (capture_and_ocr envFfmpegFail "/dev/video0" true).2
      (Ev.delete "/tmp/cap.png") = 0 := by
  have h := claim_C2 envFfmpegFail "/dev/video0" true rfl
  exact ⟨h.1, h.2.2.2⟩

/-- C2 counterexample to the claim as stated: at a failing device the call
does return the empty string, but a temporary file is left behind (created
and never deleted). -/
theorem claim_C2_counterexample :
    (capture_and_ocr envFfmpegFail "/dev/video0" true).1 = Except.ok "" ∧
    fileLeaked (capture_and_ocr envFfmpegFail "/dev/video0" true).2 "/tmp/cap.png" :=
  ⟨rfl, by decide⟩

/-- C3: after a successful capture, `capture_and_ocr` deletes the captured
file exactly once on every exit path (OCR succeeding or raising,
preprocessing run or skipped), and any other deletion it performs is of
the processed file, which only happens when that path differs from the
captured one. -/
theorem claim_C3 (env : Env) (device : String) (pp : Bool)
    (hf : env.ffmpegFails device = false) :
    countEv (capture_and_ocr env device pp).2 (Ev.delete env.tmpName) = 1 ∧
    ∀ p, p ≠ env.tmpName → Ev.delete p ∈ (capture_and_ocr env device pp).2 →
      pp = true ∧ env.pillowAvailable = true ∧
      p = pyReplace env.tmpName ".png" "_processed.png" := by
  cases pp
  case false =>
    rcases h : do_ocr env env.tmpName with ⟨r, evs2⟩
    have hd : ∀ q, countEv evs2 (Ev.delete q) = 0 := by
      intro q
      have hh := do_ocr_countEv_delete env env.tmpName q
      rw [h] at hh
      exact hh
    have hm : ∀ p, Ev.delete p ∉ evs2 := by
      intro p
      have hh := do_ocr_delete_not_mem env env.tmpName p
      rw [h] at hh
      exact hh
    constructor
    · cases r <;>
        simp [capture_and_ocr, capture_frame, hf, h, countEv_append, countEv_cons,
          countEv_nil, hd]
    · intro p hp hmem
      cases r <;>
        · simp [capture_and_ocr, capture_frame, hf, h, hm p, hp] at hmem
  case true =>
    cases hpil : env.pillowAvailable
    case false =>
      rcases h : do_ocr env env.tmpName with ⟨r, evs2⟩
      have hd : ∀ q, countEv evs2 (Ev.delete q) = 0 := by
        intro q
        have hh := do_ocr_countEv_delete env env.tmpName q
        rw [h] at hh
        exact hh
      have hm : ∀ p, Ev.delete p ∉ evs2 := by
        intro p
        have hh := do_ocr_delete_not_mem env env.tmpName p
        rw [h] at hh
        exact hh
      constructor
      · cases r <;>
          simp [capture_and_ocr, capture_frame, preprocess_image, hf, hpil, h,
            countEv_append, countEv_cons, countEv_nil, countEv_if, hd]
      · intro p hp hmem
        cases r <;>
          · simp [capture_and_ocr, capture_frame, preprocess_image, hf, hpil, h,
              hm p, hp] at hmem
    case true =>
      rcases h : do_ocr env (pyReplace env.tmpName ".png" "_processed.png") with ⟨r, evs2⟩
      have hd : ∀ q, countEv evs2 (Ev.delete q) = 0 := by
        intro q
        have hh := do_ocr_countEv_delete env (pyReplace env.tmpName ".png" "_processed.png") q
        rw [h] at hh
        exact hh
      have hm : ∀ p, Ev.delete p ∉ evs2 := by
        intro p
        have hh := do_ocr_delete_not_mem env (pyReplace env.tmpName ".png" "_processed.png") p
        rw [h] at hh
        exact hh
      by_cases hpr : pyReplace env.tmpName ".png" "_processed.png" = env.tmpName
      · rw [hpr] at h
        constructor
        · cases r <;>
            simp [capture_and_ocr, capture_frame, preprocess_image, hf, hpil, h,
              countEv_append, countEv_cons, countEv_nil, countEv_if, hd, hpr]
        · intro p hp hmem
          cases r <;>
            · simp [capture_and_ocr, capture_frame, preprocess_image, hf, hpil, h,
                hm p, hp, hpr] at hmem
      · constructor
        · cases r <;>
            simp [capture_and_ocr, capture_frame, preprocess_image, hf, hpil, h,
              countEv_append, countEv_cons, countEv_nil, countEv_if, hd, hpr]
        · intro p hp hmem
          cases r
          · simp [capture_and_ocr, capture_frame, preprocess_image, hf, hpil, h,
              hm p, hp] at hmem
          · simp [capture_and_ocr, capture_frame, preprocess_image, hf, hpil, h,
              hm p, hp, hpr] at hmem
            exact ⟨rfl, rfl, hmem⟩

theorem claim_C3_witness :
    countEv (capture_and_ocr envBase "/dev/video0" true).2 (Ev.delete "/tmp/cap.png") = 1 := by
  have h := claim_C3 envBase "/dev/video0" true rfl
  exact h.1

/-- C1 (amended): in single-shot `capture_and_ocr` after a successful
capture the captured file is deleted exactly once on every exit path, and
the processed file (when preprocessing produced a distinct path and OCR
returned) is created and deleted exactly once.  However, when ffmpeg fails
the file `capture_frame` created is never deleted, and in the `--save`
branch of `main` the processed image is created but never deleted. -/
theorem claim_C1 :
    (∀ env device pp, env.ffmpegFails device = false →
      countEv (capture_and_ocr env device pp).2 (Ev.delete env.tmpName) = 1) ∧
    (∀ env device, env.ffmpegFails device = false → env.pillowAvailable = true →
      env.ocrRaises = false →
      pyReplace env.tmpName ".png" "_processed.png" ≠ env.tmpName →
      countEv (capture_and_ocr env device true).2
        (Ev.create (pyReplace env.tmpName ".png" "_processed.png")) = 1 ∧
      countEv (capture_and_ocr env device true).2
        (Ev.delete (pyReplace env.tmpName ".png" "_processed.png")) = 1) ∧
    (∀ env device pp, env.ffmpegFails device = true →
      fileLeaked (capture_and_ocr env device pp).2 env.tmpName) ∧
    (∀ env device sp, env.ffmpegFails device = false → env.pillowAvailable = true →
      pyReplace env.tmpName ".png" "_processed.png" ≠ env.tmpName →
      fileLeaked (main_save env device sp false)
        (pyReplace env.tmpName ".png" "_processed.png")) := by
  refine ⟨?_, ?_, ?_, ?_⟩
  · -- the captured file is deleted exactly once on every path
    intro env device pp hf
    cases pp
    case false =>
      rcases h : do_ocr env env.tmpName with ⟨r, evs2⟩
      have hd : countEv evs2 (Ev.delete env.tmpName) = 0 := by
        have hh := do_ocr_countEv_delete env env.tmpName env.tmpName
        rw [h] at hh
        exact hh
      cases r <;>
        simp [capture_and_ocr, capture_frame, hf, h, countEv_append, countEv_cons,
          countEv_nil, hd]
    case true =>
      cases hpil : env.pillowAvailable
      case false =>
        rcases h : do_ocr env env.tmpName with ⟨r, evs2⟩
        have hd : countEv evs2 (Ev.delete env.tmpName) = 0 := by
          have hh := do_ocr_countEv_delete env env.tmpName env.tmpName
          rw [h] at hh
          exact hh
        cases r <;>
          simp [capture_and_ocr, capture_frame, preprocess_image, hf, hpil, h,
            countEv_append, countEv_cons, countEv_nil, countEv_if, hd]
      case true =>
        rcases h : do_ocr env (pyReplace env.tmpName ".png" "_processed.png") with ⟨r, evs2⟩
        have hd : countEv evs2 (Ev.delete env.tmpName) = 0 := by
          have hh := do_ocr_countEv_delete env
            (pyReplace env.tmpName ".png" "_processed.png") env.tmpName
          rw [h] at hh
          exact hh
        by_cases hpr : pyReplace env.tmpName ".png" "_processed.png" = env.tmpName
        · rw [hpr] at h
          cases r <;>
            simp [capture_and_ocr, capture_frame, preprocess_image, hf, hpil, h,
              countEv_append, countEv_cons, countEv_nil, countEv_if, hd, hpr]
        · cases r <;>
            simp [capture_and_ocr, capture_frame, preprocess_image, hf, hpil, h,
              countEv_append, countEv_cons, countEv_nil, countEv_if, hd, hpr]
  · -- the processed file is created and deleted exactly once when OCR returns
    intro env device hf hpil hr hpr
    rcases h : do_ocr env (pyReplace env.tmpName ".png" "_processed.png") with ⟨r, evs2⟩
    have hd : countEv evs2 (Ev.delete (pyReplace env.tmpName ".png" "_processed.png")) = 0 := by
      have hh := do_ocr_countEv_delete env (pyReplace env.tmpName ".png" "_processed.png")
        (pyReplace env.tmpName ".png" "_processed.png")
      rw [h] at hh
      exact hh
    have hc : countEv evs2 (Ev.create (pyReplace env.tmpName ".png" "_processed.png")) = 0 := by
      have hh := do_ocr_countEv_create env (pyReplace env.tmpName ".png" "_processed.png")
        (pyReplace env.tmpName ".png" "_processed.png")
      rw [h] at hh
      exact hh
    rcases do_ocr_ok_of_not_raises env (pyReplace env.tmpName ".png" "_processed.png") hr
      with ⟨t, ht⟩
    rw [h] at ht
    cases r
    case error => simp at ht
    case ok =>
      constructor <;>
        simp [capture_and_ocr, capture_frame, preprocess_image, hf, hpil, h,
          countEv_append, countEv_cons, countEv_nil, countEv_if, hd, hc, hpr,
          Ne.symm hpr]
  · -- capture failure leaks the file created by capture_frame
    intro env device pp hf
    have hcao : capture_and_ocr env device pp =
        (Except.ok "", [Ev.create env.tmpName, Ev.err "ERROR: ffmpeg failed"]) := by
      cases pp <;> simp [capture_and_ocr, capture_frame, hf]
    rw [hcao]
    constructor <;> simp [countEv_cons, countEv_nil]
  · -- the save branch leaks the processed image
    intro env device sp hf hpil hpr
    rcases h : do_ocr env (pyReplace env.tmpName ".png" "_processed.png") with ⟨r, evs2⟩
    have hd : countEv evs2 (Ev.delete (pyReplace env.tmpName ".png" "_processed.png")) = 0 := by
      have hh := do_ocr_countEv_delete env (pyReplace env.tmpName ".png" "_processed.png")
        (pyReplace env.tmpName ".png" "_processed.png")
      rw [h] at hh
      exact hh
    constructor
    · cases r <;>
        simp [main_save, capture_frame, preprocess_image, hf, hpil, h,
          countEv_append, countEv_cons, countEv_nil, Ne.symm hpr]
    · cases r <;>
        simp [main_save, capture_frame, preprocess_image, hf, hpil, h,
          countEv_append, countEv_cons, countEv_nil, hd, hpr, Ne.symm hpr]

theorem claim_C1_witness :
    countEv (capture_and_ocr envBase "/dev/video0" false).2 (Ev.delete "/tmp/cap.png") = 1 ∧
    countEv (capture_and_ocr envBase "/dev/video0" true).2
      (Ev.delete "/tmp/cap_processed.png") = 1 ∧
    fileLeaked (capture_and_ocr envFfmpegFail "/dev/video0" false).2 "/tmp/cap.png" ∧
    fileLeaked (main_save envBase "/dev/video0" "/home/user/frame.png" false)
      "/tmp/cap_processed.png" := by
  have h := claim_C1
  refine ⟨h.1 envBase "/dev/video0" false rfl, ?_, h.2.2.1 envFfmpegFail "/dev/video0" false rfl, ?_⟩
  · exact (h.2.1 envBase "/dev/video0" rfl rfl rfl (by decide)).2
  · exact h.2.2.2 envBase "/dev/video0" "/home/user/frame.png" rfl rfl (by decide)

/-- C1 counterexample to the claim as stated: on the capture-failure path
the file created by `capture_frame` is never deleted, and on the `--save`
path the processed image is never deleted. -/
theorem claim_C1_counterexample :
    fileLeaked (capture_and_ocr envFfmpegFail "/dev/video0" true).2 "/tmp/cap.png" ∧
    fileLeaked (main_save envBase "/dev/video0" "/home/user/frame.png" false)
      "/tmp/cap_processed.png" := by
  decide

/-- Environment whose OCR result is the text `a` newline `c`. -/
def envDiff : Env :=
  { envBase with tesseractRun := fun _ => (0, "a\nc") }

/-- C4: a diff-mode polling cycle prints exactly the non-empty lines of
the new text that occur nowhere among the lines of the previous text
(line-level membership, not position-aware); for previous text a/b and new
text a/c exactly the line c results. -/
theorem claim_C4 :
    (∀ env device last_text text,
      (capture_and_ocr env device true).1 = Except.ok text →
      printedOut (watch_step env device true last_text).1 = new_lines text last_text) ∧
    (∀ text last_text l, l ∈ new_lines text last_text ↔
      l ∈ split_lines text ∧ l ≠ "" ∧ l ∉ split_lines last_text) ∧
    new_lines "a\nc" "a\nb" = ["c"] := by
  refine ⟨?_, ?_, by decide⟩
  · intro env device last_text text hok
    rcases h : capture_and_ocr env device true with ⟨r, evs⟩
    rw [h] at hok
    simp only at hok
    have hpo : printedOut evs = [] := by
      have hh := printedOut_capture_and_ocr env device true
      rw [h] at hh
      exact hh
    subst hok
    simp [watch_step, h, printedOut_append, hpo, printedOut_map_out]
  · intro text last_text l
    simp [new_lines, List.mem_filter, decide_eq_true_eq]

theorem claim_C4_witness :
    printedOut (watch_step envDiff "/dev/video0" true "a\nb").1 = ["c"] := by
  have h := claim_C4
  have h1 := h.1 envDiff "/dev/video0" "a\nb" "a\nc" rfl
  rw [h1]
  exact h.2.2

/-- C10: the watch loop starts with the empty previous text, and since
every line is distinct from the empty string, the first diff-mode cycle
prints every non-empty line of the first captured text. -/
theorem claim_C10 :
    (∀ text, new_lines text "" = (split_lines text).filter fun l => decide (l ≠ "")) ∧
    (∀ env device text,
      (capture_and_ocr env device true).1 = Except.ok text →
      printedOut (watch_mode env device true 1) =
        (split_lines text).filter fun l => decide (l ≠ "")) := by
  have hgen : ∀ text,
      new_lines text "" = (split_lines text).filter fun l => decide (l ≠ "") := by
    intro text
    unfold new_lines
    apply List.filter_congr
    intro a _
    rw [show split_lines "" = [""] from rfl]
    apply decide_eq_decide.mpr
    simp
  constructor
  · exact hgen
  · intro env device text hok
    rcases h : capture_and_ocr env device true with ⟨r, evs⟩
    rw [h] at hok
    simp only at hok
    have hpo : printedOut evs = [] := by
      have hh := printedOut_capture_and_ocr env device true
      rw [h] at hh
      exact hh
    subst hok
    simp [watch_mode, watch_run, watch_step, h, printedOut_append,
      printedOut_cons_err, printedOut_nil, hpo, printedOut_map_out, hgen]

theorem claim_C10_witness :
    printedOut (watch_mode envDiff "/dev/video0" true 1) = ["a", "c"] := by
  have h := claim_C10.2 envDiff "/dev/video0" "a\nc" rfl
  rw [h]
  decide

/-- C8: the watch branch of `main` is unaffected by the `--no-preprocess`
flag, and every watch cycle runs with preprocessing enabled: whenever
capture succeeds and Pillow is available, the cycle creates the processed
image. -/
theorem claim_C8 :
    (∀ env args fuel b, args.watch = true →
      run_main env { args with no_preprocess := b } fuel = run_main env args fuel) ∧
    (∀ env device diff_only last_text,
      env.ffmpegFails device = false → env.pillowAvailable = true →
      Ev.create (pyReplace env.tmpName ".png" "_processed.png")
        ∈ (watch_step env device diff_only last_text).1) := by
  constructor
  · intro env args fuel b hw
    cases args
    simp_all [run_main]
  · intro env device diff_only last_text hf hpil
    rcases h : do_ocr env (pyReplace env.tmpName ".png" "_processed.png") with ⟨r, evs2⟩
    cases r with
    | error e =>
        cases diff_only <;>
          simp [watch_step, capture_and_ocr, capture_frame, preprocess_image, hf, hpil, h]
    | ok text =>
        cases diff_only
        case true =>
          simp [watch_step, capture_and_ocr, capture_frame, preprocess_image, hf, hpil, h]
        case false =>
          by_cases htxt : text ≠ last_text <;>
            simp [watch_step, capture_and_ocr, capture_frame, preprocess_image,
              hf, hpil, h, htxt]

theorem claim_C8_witness :
    run_main envBase
      { device := "/dev/video0", watch := true, diff := true,
        no_preprocess := true, save := none } 1 =
    run_main envBase
      { device := "/dev/video0", watch := true, diff := true,
        no_preprocess := false, save := none } 1 ∧
    Ev.create "/tmp/cap_processed.png" ∈ (watch_step envBase "/dev/video0" true "").1 := by
  have h := claim_C8
  constructor
  · exact h.1 envBase
      { device := "/dev/video0", watch := true, diff := true,
        no_preprocess := false, save := none } 1 true rfl
  · exact h.2 envBase "/dev/video0" true "" rfl rfl

end CaptureOcr
